import Mathlib

/-!
Verification model of the webhook_bridge Python executor
(src/python_executor/server.py, src/webhook_bridge/plugin.py,
src/webhook_bridge/filesystem.py).

Python values flowing through the plugin pipeline are modelled by the
inductive `JVal` (JSON-compatible values; numbers are modelled as `Int`
since every claim only involves integers).  Python dictionaries are
modelled as association lists in insertion order, matching CPython's
ordered dicts.  Wall-clock durations are modelled as `ℚ` parameters.
-/

namespace WebhookBridge

/-- JSON-compatible Python value (the payloads plugins receive and return). -/
inductive JVal where
  | jnull : JVal
  | jbool : Bool → JVal
  | jnum : Int → JVal
  | jstr : String → JVal
  | jarr : List JVal → JVal
  | jobj : List (String × JVal) → JVal

/-- Python truthiness test (`bool(v)` is `False`): models the `or {}`
falsy check in `BasePlugin.execute`. -/
def pyFalsy : JVal → Bool
  | .jnull => true
  | .jbool b => !b
  | .jnum n => n == 0
  | .jstr s => s == ""
  | .jarr xs => xs.isEmpty
  | .jobj fs => fs.isEmpty

/-- A single-quote character, kept out of string literals. -/
def sq : String := String.singleton (Char.ofNat 39)

/-- Python `s.lower()` on the ASCII strings this system carries. -/
def pyLower (s : String) : String :=
  String.mk (s.toList.map Char.toLower)

/-- Python `s.upper()` on the ASCII strings this system carries. -/
def pyUpper (s : String) : String :=
  String.mk (s.toList.map Char.toUpper)

/-- Python `s[:-n]` for `n ≤ len(s)`. -/
def pyDropRight (s : String) (n : Nat) : String :=
  String.mk (s.toList.take (s.toList.length - n))

/-- Escape of one character inside a JSON string literal, as
`json.dumps` produces for the plain ASCII strings this system carries. -/
def jsonEscapeChar (c : Char) : String :=
  if c = Char.ofNat 92 then "\\\\"
  else if c = Char.ofNat 34 then "\\\""
  else String.singleton c

/-- A double-quoted JSON string literal, as `json.dumps` renders it. -/
def jsonQuote (s : String) : String :=
  "\"" ++ s.toList.foldl (fun acc c => acc ++ jsonEscapeChar c) "" ++ "\""

mutual

/-- `json.dumps(v)` with CPython's default separators (", " and ": "). -/
def jsonDumps : JVal → String
  | .jnull => "null"
  | .jbool b => if b then "true" else "false"
  | .jnum n => toString n
  | .jstr s => jsonQuote s
  | .jarr xs => "[" ++ jsonDumpsItems xs ++ "]"
  | .jobj fs => "\x7b" ++ jsonDumpsFields fs ++ "\x7d"

/-- Comma-separated rendering of a JSON array's items. -/
def jsonDumpsItems : List JVal → String
  | [] => ""
  | [x] => jsonDumps x
  | x :: y :: xs => jsonDumps x ++ ", " ++ jsonDumpsItems (y :: xs)

/-- Comma-separated rendering of a JSON object's key/value pairs. -/
def jsonDumpsFields : List (String × JVal) → String
  | [] => ""
  | [(k, v)] => jsonQuote k ++ ": " ++ jsonDumps v
  | (k, v) :: f :: fs => jsonQuote k ++ ": " ++ jsonDumps v ++ ", " ++ jsonDumpsFields (f :: fs)

end

mutual

/-- Python `repr(v)` on the JSON-compatible fragment (string escaping
elided: the strings this system carries contain no quotes). -/
def pyRepr : JVal → String
  | .jnull => "None"
  | .jbool b => if b then "True" else "False"
  | .jnum n => toString n
  | .jstr s => sq ++ s ++ sq
  | .jarr xs => "[" ++ pyReprItems xs ++ "]"
  | .jobj fs => "\x7b" ++ pyReprFields fs ++ "\x7d"

/-- Comma-separated Python repr of a list's items. -/
def pyReprItems : List JVal → String
  | [] => ""
  | [x] => pyRepr x
  | x :: y :: xs => pyRepr x ++ ", " ++ pyReprItems (y :: xs)

/-- Comma-separated Python repr of a dict's pairs. -/
def pyReprFields : List (String × JVal) → String
  | [] => ""
  | [(k, v)] => sq ++ k ++ sq ++ ": " ++ pyRepr v
  | (k, v) :: f :: fs => sq ++ k ++ sq ++ ": " ++ pyRepr v ++ ", " ++ pyReprFields (f :: fs)

end

/-- Python `str(v)`: identity on strings, `repr` otherwise. -/
def pyStr : JVal → String
  | .jstr s => s
  | v => pyRepr v

/-- `WebhookExecutorServicer._format_plugin_result` (server.py:165-181):
dict values that are dicts or lists are serialized with `json.dumps`,
every other value is passed through `str`; a non-dict result is wrapped
under the single key "result". -/
def format_plugin_result (result : JVal) : List (String × String) :=
  match result with
  | .jobj fields =>
      fields.map (fun kv =>
        match kv.2 with
        | .jobj _ => (kv.1, jsonDumps kv.2)
        | .jarr _ => (kv.1, jsonDumps kv.2)
        | v => (kv.1, pyStr v))
  | r => [("result", pyStr r)]

/-- `BasePlugin.execute` (plugin.py:170-185) given the outcome of
`self.run()`: a falsy run result is replaced by the empty dict, then the
result is wrapped together with the input data, a fixed info string and
the (upper-cased, per `BasePlugin.__init__`) HTTP method. -/
def basePluginExecute (selfData : List (String × String)) (http_method : String)
    (runResult : JVal) : JVal :=
  let d := if pyFalsy runResult then JVal.jobj [] else runResult
  JVal.jobj
    [ ("input_data", JVal.jobj (selfData.map (fun kv => (kv.1, JVal.jstr kv.2)))),
      ("additional_info", JVal.jstr "This is some additional information."),
      ("http_method", JVal.jstr (pyUpper http_method)),
      ("result", d) ]

/-- The servicer's `execution_stats` dict (server.py:41-46). -/
structure ExecStats where
  total_executions : Nat
  successful_executions : Nat
  failed_executions : Nat
  total_execution_time : ℚ
deriving DecidableEq

/-- The all-zero statistics installed by `WebhookExecutorServicer.__init__`. -/
def initStats : ExecStats :=
  { total_executions := 0, successful_executions := 0,
    failed_executions := 0, total_execution_time := 0 }

/-- `WebhookExecutorServicer._update_execution_stats` (server.py:183-191). -/
def update_execution_stats (s : ExecStats) (success : Bool) (execution_time : ℚ) :
    ExecStats :=
  { total_executions := s.total_executions + 1,
    total_execution_time := s.total_execution_time + execution_time,
    successful_executions :=
      if success then s.successful_executions + 1 else s.successful_executions,
    failed_executions :=
      if success then s.failed_executions else s.failed_executions + 1 }

/-- Python `s.startswith(pre)`. -/
def strStartsWith (s pre : String) : Bool :=
  pre.toList.isPrefixOf s.toList

/-- Python `s.endswith(post)`. -/
def strEndsWith (s post : String) : Bool :=
  post.toList.isSuffixOf s.toList

/-- Does `pat` occur contiguously in `l`? -/
def listContains (pat : List Char) : List Char → Bool
  | [] => pat.isEmpty
  | c :: rest => pat.isPrefixOf (c :: rest) || listContains pat rest

/-- Python substring test (the `in` operator on strings): does `pat`
occur contiguously in `s`? -/
def strContains (s pat : String) : Bool :=
  listContains pat.toList s.toList

/-- The keyword classification of an exception message in
`WebhookExecutorServicer.ExecutePlugin` (server.py:268-275): the status
starts at 500 and is overridden by the first matching keyword test on
the lower-cased message. -/
def classifyErrorStatus (error_msg : String) : Nat :=
  if strContains (pyLower error_msg) "not found" then 404
  else if strContains (pyLower error_msg) "permission" || strContains (pyLower error_msg) "access" then 403
  else if strContains (pyLower error_msg) "timeout" then 408
  else 500

/-- A loaded plugin class: which of the four HTTP-method handlers the
concrete class overrides, its docstring and class name (read by
List/Describe), and the outcome of instantiating it and calling
`run()` through `BasePlugin.execute` (an exception's text, or the value
`run()` returns). -/
structure PluginClass where
  overridesGet : Bool
  overridesPost : Bool
  overridesPut : Bool
  overridesDelete : Bool
  doc : Option String
  className : String
  runOutcome : Except String JVal

/-- `webhook_pb2.ExecutePluginResponse` fields the servicer populates. -/
structure ExecutePluginResponse where
  status_code : Nat
  message : String
  data : List (String × String)
  error : String
  execution_time : ℚ

/-- Python `repr` of a list of plugin names, as interpolated into the
404 error message (`list(plugins.keys())`). -/
def pyReprNames (names : List String) : String :=
  "[" ++ String.intercalate ", " (names.map (fun n => sq ++ n ++ sq)) ++ "]"

/-- `WebhookExecutorServicer.ExecutePlugin` (server.py:193-282).
Discovery is passed in as the already-built name→location association
list; the loader stands for `_load_plugin_with_cache` and the
`runOutcome` field of its result for
`plugin_class(data, http_method).execute()`'s call to `run()`; either
failure raises into the single `except` block, which classifies the
message by keywords.  Wall-clock elapsed time is the parameter
`elapsed`.  Returns the response together with the updated statistics. -/
def ExecutePlugin (plugins : List (String × String))
    (load : String → Except String PluginClass)
    (plugin_name http_method : String)
    (requestData : List (String × String))
    (elapsed : ℚ) (stats : ExecStats) :
    ExecutePluginResponse × ExecStats :=
  match plugins.lookup plugin_name with
  | none =>
      ({ status_code := 404, message := "Plugin not found",
         error := "Plugin " ++ sq ++ plugin_name ++ sq ++ " not found. Available plugins: "
           ++ pyReprNames (plugins.map (·.1)),
         data := [], execution_time := elapsed },
       update_execution_stats stats false elapsed)
  | some path =>
      match (load path).bind (fun cls => cls.runOutcome) with
      | .error e =>
          ({ status_code := classifyErrorStatus e, message := "Plugin execution failed",
             error := e, data := [], execution_time := elapsed },
           update_execution_stats stats false elapsed)
      | .ok runResult =>
          let result := basePluginExecute requestData http_method runResult
          ({ status_code := 200, message := "success",
             data := format_plugin_result result, error := "",
             execution_time := elapsed },
           update_execution_stats stats true elapsed)

/-! ## Plugin cache (`_load_plugin_with_cache`) -/

/-- The cache key `f"\x7bplugin_path\x7d:\x7bmtime\x7d"` (server.py:129). -/
def cacheKey (path : String) (mtime : Nat) : String :=
  path ++ ":" ++ toString mtime

/-- The servicer's `plugin_cache` dict together with a count of Loader
invocations (the count is not program state; it only witnesses how many
times `load_plugin` has been called). -/
structure CacheState where
  plugin_cache : List (String × PluginClass)
  loaderCalls : Nat

/-- `WebhookExecutorServicer._load_plugin_with_cache` (server.py:124-146).
`load_plugin path mtime` stands for `load_plugin(plugin_path)`: its
result is determined by the file's content, which the modification time
read at call time identifies.  A key hit returns the cached class and
invokes no Loader; a miss loads, stores under the new key and returns. -/
def load_plugin_with_cache (load_plugin : String → Nat → PluginClass)
    (st : CacheState) (path : String) (mtime : Nat) : PluginClass × CacheState :=
  match st.plugin_cache.lookup (cacheKey path mtime) with
  | some cls => (cls, st)
  | none =>
      let cls := load_plugin path mtime
      (cls, { plugin_cache := (cacheKey path mtime, cls) :: st.plugin_cache,
              loaderCalls := st.loaderCalls + 1 })

/-! ## Plugin discovery (`filesystem.py` and the servicer's extra dirs) -/

/-- Abstract filesystem: an association of (absolute) directory paths to
the file names they directly contain.  A path absent from `dirs` is not
a directory. -/
structure FS where
  dirs : List (String × List String)

/-- `os.path.join(path, filename)` for the absolute paths used here. -/
def joinPath (path f : String) : String := path ++ "/" ++ f

/-- Characters before the first occurrence of ".py": models Python's
`os.path.basename(p).split(".py")[0]` (filesystem.py:105). -/
def takeBeforePy : List Char → List Char
  | [] => []
  | c :: rest =>
      if [Char.ofNat 46, Char.ofNat 112, Char.ofNat 121].isPrefixOf (c :: rest) then []
      else c :: takeBeforePy rest

/-- The plugin name `filename.split(".py")[0]` used by `get_plugins`. -/
def splitPyHead (f : String) : String := String.mk (takeBeforePy f.toList)

/-- `get_plugin_paths` (filesystem.py:35-72): environment paths are
collected first, the default path is inserted at index 0, and a truthy
extra path not already present is appended last. -/
def get_plugin_paths (envPaths : List String) (defaultPath : String)
    (extra : Option String) : List String :=
  let paths := defaultPath :: envPaths
  match extra with
  | none => paths
  | some e => if e ≠ "" ∧ ¬ paths.contains e then paths ++ [e] else paths

/-- The body of `get_plugins`' loop over one directory
(filesystem.py:97-109): glob "*.py" (whose `*` does not match a leading
dot), name from `split(".py")[0]`, `__init__` excluded, and an entry is
inserted only when the name is not yet bound (first directory wins). -/
def scanFileInto (path : String) (acc : List (String × String)) (f : String) :
    List (String × String) :=
  if strEndsWith f ".py" && !(strStartsWith f ".") then
    let name := splitPyHead f
    if name ≠ "__init__" ∧ acc.lookup name = none then
      acc ++ [(name, joinPath path f)]
    else acc
  else acc

/-- One directory's contribution to `get_plugins`' accumulating map. -/
def scanDirInto (fs : FS) (acc : List (String × String)) (path : String) :
    List (String × String) :=
  match fs.dirs.lookup path with
  | none => acc
  | some files => files.foldl (scanFileInto path) acc

/-- The scan performed by one (uncached) evaluation of `get_plugins`
(filesystem.py:76-112). -/
def get_plugins_scan (fs : FS) (envPaths : List String) (defaultPath : String)
    (extra : Option String) : List (String × String) :=
  (get_plugin_paths envPaths defaultPath extra).foldl (scanDirInto fs) []

/-- `get_plugins` as defined, i.e. wrapped in `@lru_cache`
(filesystem.py:75): the memo is keyed on the `extra_path` argument; a
hit returns the stored map without rescanning, a miss scans the current
filesystem and stores the result.  Returns (result, updated memo). -/
def get_plugins_cached (fs : FS) (envPaths : List String) (defaultPath : String)
    (memo : List (Option String × List (String × String))) (extra : Option String) :
    List (String × String) × List (Option String × List (String × String)) :=
  match memo.lookup extra with
  | some r => (r, memo)
  | none =>
      let r := get_plugins_scan fs envPaths defaultPath extra
      (r, (extra, r) :: memo)

/-- Python dict assignment `m[k] = v`: replaces the value in place if
the key exists, appends otherwise. -/
def assocSet (m : List (String × String)) (k v : String) : List (String × String) :=
  match m with
  | [] => [(k, v)]
  | kv :: rest => if kv.1 = k then (k, v) :: rest else kv :: assocSet rest k v

/-- Python `m.update(extra)`: every pair of `extra` is assigned into `m`,
overwriting existing bindings. -/
def dictUpdate (m extra : List (String × String)) : List (String × String) :=
  extra.foldl (fun acc kv => assocSet acc kv.1 kv.2) m

/-- `WebhookExecutorServicer._discover_plugins_in_dir` (server.py:102-122):
`os.listdir` entries ending in ".py" and not starting with "__", name =
`filename[:-3]`, assigned into a fresh dict. -/
def discoverFileInto (plugin_dir : String) (acc : List (String × String))
    (f : String) : List (String × String) :=
  if strEndsWith f ".py" && !(strStartsWith f "__") then
    assocSet acc (pyDropRight f 3) (joinPath plugin_dir f)
  else acc

/-- The whole directory scan of `_discover_plugins_in_dir`. -/
def discover_plugins_in_dir (fs : FS) (plugin_dir : String) : List (String × String) :=
  match fs.dirs.lookup plugin_dir with
  | none => []
  | some files => files.foldl (discoverFileInto plugin_dir) []

/-- `WebhookExecutorServicer._get_plugins_with_extra_dirs`
(server.py:79-100): starts from the map returned by `get_plugins()`
(supplied here as `basePlugins`, cf. `get_plugins_cached`), then for
each configured extra directory calls `plugins.update(...)` with that
directory's discoveries. -/
def get_plugins_with_extra_dirs (fs : FS) (basePlugins : List (String × String))
    (plugin_dirs : List String) : List (String × String) :=
  plugin_dirs.foldl (fun acc d => dictUpdate acc (discover_plugins_in_dir fs d)) basePlugins

/-! ## List / Describe -/

/-- `webhook_pb2.PluginInfo` fields the claims touch (`last_modified`,
a wall-clock timestamp string, is elided). -/
structure PluginInfo where
  name : String
  path : String
  description : String
  supported_methods : List String
  is_available : Bool
deriving DecidableEq

/-- `WebhookExecutorServicer._get_supported_methods` (server.py:368-386):
a method is listed iff the concrete class's attribute differs from
`BasePlugin`'s; if none differ, all four are reported. -/
def get_supported_methods (cls : PluginClass) : List String :=
  let ms :=
    (if cls.overridesGet then ["GET"] else [])
    ++ (if cls.overridesPost then ["POST"] else [])
    ++ (if cls.overridesPut then ["PUT"] else [])
    ++ (if cls.overridesDelete then ["DELETE"] else [])
  if ms.isEmpty then ["GET", "POST", "PUT", "DELETE"] else ms

/-- `WebhookExecutorServicer._get_plugin_description` (server.py:388-407):
first line of the docstring, trimmed, with stray triple-quote markers
stripped, falling back to a class-name based description. -/
def get_plugin_description (cls : PluginClass) : String :=
  let tq := "\"\"\""
  let description :=
    match cls.doc with
    | none => ""
    | some d =>
        if d = "" then ""
        else
          let firstLine := ((d.trim).splitOn "\n").headD ""
          let desc := firstLine.trim
          let desc := if strStartsWith desc tq then (desc.drop 3).trim else desc
          let desc := if strEndsWith desc tq then (desc.dropRight 3).trim else desc
          desc
  if description = "" then "Plugin class: " ++ cls.className else description

/-- One entry assembled by `WebhookExecutorServicer.ListPlugins`
(server.py:306-350) for a discovered (name, path): a successful load
reports the overridden-method set and availability, a failed load
reports no methods and `is_available = false`. -/
def listPluginEntry (load : String → Except String PluginClass)
    (name path : String) : PluginInfo :=
  match load path with
  | .ok cls =>
      { name := name, path := path, description := get_plugin_description cls,
        supported_methods := get_supported_methods cls, is_available := true }
  | .error e =>
      { name := name, path := path, description := "Failed to load: " ++ e,
        supported_methods := [], is_available := false }

/-- `WebhookExecutorServicer.GetPluginInfo` (server.py:409-473): looks
the name up in `get_plugins()` (no extra directories); absent names give
`found = false` (modelled as `none`); otherwise a direct `load_plugin`
gives either the full-docstring entry with all four methods hardcoded,
or a failed-load entry with `found = true`. -/
def GetPluginInfo (plugins : List (String × String))
    (load : String → Except String PluginClass)
    (plugin_name : String) : Option PluginInfo :=
  match plugins.lookup plugin_name with
  | none => none
  | some path =>
      match load path with
      | .ok cls =>
          some { name := plugin_name, path := path,
                 description :=
                   (match cls.doc with
                    | some d => if d ≠ "" then d.trim else ""
                    | none => ""),
                 supported_methods := ["GET", "POST", "PUT", "DELETE"],
                 is_available := true }
      | .error e =>
          some { name := plugin_name, path := path,
                 description := "Failed to load: " ++ e,
                 supported_methods := [], is_available := false }

/-! ## HealthCheck -/

/-- The success rate computed in `HealthCheck` (server.py:498-500). -/
def successRate (stats : ExecStats) : ℚ :=
  if stats.total_executions > 0 then
    ((stats.successful_executions : ℚ) / (stats.total_executions : ℚ)) * 100
  else 0

/-- Status and message of `webhook_pb2.HealthCheckResponse` (the
`details` map of formatted statistics strings is elided). -/
structure HealthCheckResponse where
  status : String
  message : String
deriving DecidableEq

/-- `WebhookExecutorServicer.HealthCheck` (server.py:475-555).
`discovery` is the outcome of `_get_plugins_with_extra_dirs()` (an
exception there reaches the outer handler and yields "unhealthy");
`canaryLoadError` is the exception text of the canary
`_load_plugin_with_cache` on the first discovered plugin, when that
canary load fails.  Numeric interpolations of the float success rate
are elided from the degraded-rate message. -/
def HealthCheck (discovery : Except String (List (String × String)))
    (canaryLoadError : Option String) (stats : ExecStats) : HealthCheckResponse :=
  match discovery with
  | .error e => { status := "unhealthy", message := "Health check failed: " ++ e }
  | .ok plugins =>
      let plugin_count := plugins.length
      let rate := successRate stats
      let plugin_test_status :=
        if plugins.isEmpty then "unknown"
        else
          match canaryLoadError with
          | some e => "failed: " ++ e
          | none => "ok"
      if plugin_count = 0 then
        { status := "degraded", message := "No plugins found" }
      else if strStartsWith plugin_test_status "failed" then
        { status := "degraded",
          message := "Plugin loading issues detected: " ++ plugin_test_status }
      else if stats.total_executions > 10 ∧ rate < 80 then
        { status := "degraded", message := "Low success rate" }
      else
        { status := "healthy",
          message := "Python executor is healthy. " ++ toString plugin_count
            ++ " plugins available." }

/-- Statistics after a sequence of invocations: each event is
(success?, elapsed time), folded through `_update_execution_stats`
starting from the initial all-zero statistics. -/
def runStats (events : List (Bool × ℚ)) : ExecStats :=
  events.foldl (fun s e => update_execution_stats s e.1 e.2) initStats

/-! ## Concrete plugin classes, loaders and filesystems used to
instantiate the theorems -/

/-- A plugin class whose invocation raises a timeout exception. -/
def timeoutPlugin : PluginClass :=
  { overridesGet := false, overridesPost := false, overridesPut := false,
    overridesDelete := false, doc := none, className := "TimeoutPlugin",
    runOutcome := .error "Connection timeout" }

/-- A plugin class whose `run()` returns `None`. -/
def nonePlugin : PluginClass :=
  { overridesGet := false, overridesPost := false, overridesPut := false,
    overridesDelete := false, doc := none, className := "NonePlugin",
    runOutcome := .ok JVal.jnull }

/-- A first-generation class for the cache witness. -/
def cacheGen1 : PluginClass :=
  { overridesGet := false, overridesPost := false, overridesPut := false,
    overridesDelete := false, doc := none, className := "Gen", runOutcome := .ok (.jnum 1) }

/-- A second-generation class for the cache witness. -/
def cacheGen2 : PluginClass :=
  { overridesGet := false, overridesPost := false, overridesPut := false,
    overridesDelete := false, doc := none, className := "Gen", runOutcome := .ok (.jnum 2) }

/-- A loader whose result depends on the modification time, standing
for file content that changed between generations. -/
def genLoader : String → Nat → PluginClass :=
  fun _ mtime => if mtime = 1 then cacheGen1 else cacheGen2

/-- The mapping of the round-trip scenario: the plugin capability
returns the Python dict with keys "x" and "y". -/
def xyMapping : JVal :=
  .jobj [("x", .jnum 1), ("y", .jarr [.jnum 1, .jnum 2])]

/-- A plugin class whose `run()` returns the round-trip mapping. -/
def xyPlugin : PluginClass :=
  { overridesGet := false, overridesPost := false, overridesPut := false,
    overridesDelete := false, doc := none, className := "XYPlugin",
    runOutcome := .ok xyMapping }

/-- A plugin class overriding only the `post` handler. -/
def postOnlyPlugin : PluginClass :=
  { overridesGet := false, overridesPost := true, overridesPut := false,
    overridesDelete := false, doc := none, className := "PostPlugin",
    runOutcome := .ok (.jobj []) }

/-- A filesystem where the default and the extra directory both hold a
plugin file named "p.py". -/
def fsBoth : FS := ⟨[("/default", ["p.py"]), ("/extra", ["p.py"])]⟩

/-- A filesystem whose default directory holds "a.py". -/
def fsWithA : FS := ⟨[("/default", ["a.py"])]⟩

/-- The same filesystem after "a.py" was removed. -/
def fsWithoutA : FS := ⟨[("/default", [])]⟩

/-! ## Helper lemmas -/

/-- Folding `_update_execution_stats` over a batch of events adds the
event count to `total`, the success count to `successful` and the
failure count to `failed`. -/
theorem stats_foldl (events : List (Bool × ℚ)) (s : ExecStats) :
    (events.foldl (fun s e => update_execution_stats s e.1 e.2) s).total_executions
        = s.total_executions + events.length
    ∧ (events.foldl (fun s e => update_execution_stats s e.1 e.2) s).successful_executions
        = s.successful_executions + events.countP (fun e => e.1)
    ∧ (events.foldl (fun s e => update_execution_stats s e.1 e.2) s).failed_executions
        = s.failed_executions + events.countP (fun e => !e.1) := by
  induction events generalizing s with
  | nil => simp
  | cons e es ih =>
    obtain ⟨h1, h2, h3⟩ := ih (update_execution_stats s e.1 e.2)
    refine ⟨?_, ?_, ?_⟩ <;>
      simp only [List.foldl_cons, List.countP_cons, List.length_cons, h1, h2, h3] <;>
      cases e.1 <;> simp [update_execution_stats] <;> omega

/-- In any event list, successes and failures partition the events. -/
theorem countP_split (events : List (Bool × ℚ)) :
    events.countP (fun e => e.1) + events.countP (fun e => !e.1) = events.length := by
  induction events with
  | nil => simp
  | cons e es ih =>
    simp only [List.countP_cons, List.length_cons]
    cases e.1 <;> simp <;> omega

/-! ## Claim theorems -/

/-- C5: every exception raised during plugin instantiation or capability
invocation is caught; Execute returns message "Plugin execution failed",
error equal to the exception text, and a status code by case-insensitive
keyword match ("not found" → 404, else "permission"/"access" → 403, else
"timeout" → 408, otherwise 500); the failure and its elapsed time are
recorded in the statistics. -/
theorem execute_exception_classified
    (plugins : List (String × String)) (load : String → Except String PluginClass)
    (plugin_name http_method path : String) (cls : PluginClass)
    (requestData : List (String × String)) (elapsed : ℚ) (stats : ExecStats)
    (msg : String)
    (hfind : plugins.lookup plugin_name = some path)
    (hload : load path = .ok cls)
    (hrun : cls.runOutcome = .error msg) :
    (ExecutePlugin plugins load plugin_name http_method requestData elapsed stats).1.message
        = "Plugin execution failed"
    ∧ (ExecutePlugin plugins load plugin_name http_method requestData elapsed stats).1.error
        = msg
    ∧ (ExecutePlugin plugins load plugin_name http_method requestData elapsed stats).1.status_code
        = (if strContains (pyLower msg) "not found" then 404
           else if strContains (pyLower msg) "permission" || strContains (pyLower msg) "access" then 403
           else if strContains (pyLower msg) "timeout" then 408
           else 500)
    ∧ (ExecutePlugin plugins load plugin_name http_method requestData elapsed stats).2
        = { total_executions := stats.total_executions + 1,
            successful_executions := stats.successful_executions,
            failed_executions := stats.failed_executions + 1,
            total_execution_time := stats.total_execution_time + elapsed } := by
  simp [ExecutePlugin, hfind, hload, hrun, Except.bind, classifyErrorStatus,
    update_execution_stats]

/-- Witness for the classification theorem: a concrete timeout exception
yields status 408, the fixed failure message, and one recorded failure. -/
theorem execute_exception_classified_witness :
    (ExecutePlugin [("p", "/plugins/p.py")] (fun _ => .ok timeoutPlugin)
        "p" "POST" [] 1 initStats).1.message = "Plugin execution failed"
    ∧ (ExecutePlugin [("p", "/plugins/p.py")] (fun _ => .ok timeoutPlugin)
        "p" "POST" [] 1 initStats).1.status_code = 408
    ∧ (ExecutePlugin [("p", "/plugins/p.py")] (fun _ => .ok timeoutPlugin)
        "p" "POST" [] 1 initStats).2.failed_executions = 1 := by
  have h := execute_exception_classified [("p", "/plugins/p.py")]
    (fun _ => .ok timeoutPlugin) "p" "POST" "/plugins/p.py" timeoutPlugin
    [] 1 initStats "Connection timeout" rfl rfl rfl
  refine ⟨h.1, h.2.2.1.trans (by decide), ?_⟩
  rw [h.2.2.2]
  simp [initStats]

/-- C9: starting from the all-zero statistics, after any interleaving of
successful and failed invocations, `total = N + M`, `successful = N`,
`failed = M`, `total = successful + failed` is preserved by every
update, and the derived success rate equals `N/(N+M)*100` when
`N + M > 0`. -/
theorem stats_bookkeeping_invariant (events : List (Bool × ℚ)) :
    (runStats events).total_executions
        = events.countP (fun e => e.1) + events.countP (fun e => !e.1)
    ∧ (runStats events).successful_executions = events.countP (fun e => e.1)
    ∧ (runStats events).failed_executions = events.countP (fun e => !e.1)
    ∧ (∀ (s : ExecStats) (b : Bool) (t : ℚ),
        s.total_executions = s.successful_executions + s.failed_executions →
        (update_execution_stats s b t).total_executions
          = (update_execution_stats s b t).successful_executions
            + (update_execution_stats s b t).failed_executions)
    ∧ (0 < events.countP (fun e => e.1) + events.countP (fun e => !e.1) →
        successRate (runStats events)
          = (events.countP (fun e => e.1) : ℚ)
              / ((events.countP (fun e => e.1) : ℚ) + (events.countP (fun e => !e.1) : ℚ))
              * 100) := by
  obtain ⟨h1, h2, h3⟩ := stats_foldl events initStats
  have hsplit := countP_split events
  have htot : (runStats events).total_executions
      = events.countP (fun e => e.1) + events.countP (fun e => !e.1) := by
    simp only [runStats]; rw [h1, ← hsplit]; simp [initStats]
  have hsucc : (runStats events).successful_executions
      = events.countP (fun e => e.1) := by
    simp only [runStats]; rw [h2]; simp [initStats]
  have hfail : (runStats events).failed_executions
      = events.countP (fun e => !e.1) := by
    simp only [runStats]; rw [h3]; simp [initStats]
  refine ⟨htot, hsucc, hfail, ?_, ?_⟩
  · intro s b t hs
    cases b <;> simp only [update_execution_stats] <;> simp <;> omega
  · intro hpos
    simp only [successRate, htot, hsucc]
    rw [if_pos hpos]
    push_cast
    ring

/-- Witness for the statistics invariant: two successes and one failure
give total 3, successful 2, failed 1, and success rate 200/3. -/
theorem stats_bookkeeping_invariant_witness :
    (runStats [(true, 1), (false, 2), (true, 3)]).total_executions = 3
    ∧ (runStats [(true, 1), (false, 2), (true, 3)]).successful_executions = 2
    ∧ (runStats [(true, 1), (false, 2), (true, 3)]).failed_executions = 1
    ∧ successRate (runStats [(true, 1), (false, 2), (true, 3)]) = 200 / 3 := by
  have h := stats_bookkeeping_invariant [(true, 1), (false, 2), (true, 3)]
  refine ⟨h.1.trans (by decide), h.2.1.trans (by decide), h.2.2.1.trans (by decide), ?_⟩
  have hr := h.2.2.2.2 (by decide)
  rw [hr]
  norm_num

/-- C10: a plugin whose invoked capability returns a falsy value without
raising still yields a success envelope: status 200, message "success",
the falsy return replaced by the empty mapping before wrapping, and a
successful execution recorded. -/
theorem execute_falsy_run_succeeds
    (plugins : List (String × String)) (load : String → Except String PluginClass)
    (plugin_name http_method path : String) (cls : PluginClass)
    (requestData : List (String × String)) (elapsed : ℚ) (stats : ExecStats)
    (v : JVal)
    (hfind : plugins.lookup plugin_name = some path)
    (hload : load path = .ok cls)
    (hrun : cls.runOutcome = .ok v)
    (hfalsy : pyFalsy v = true) :
    (ExecutePlugin plugins load plugin_name http_method requestData elapsed stats).1.status_code
        = 200
    ∧ (ExecutePlugin plugins load plugin_name http_method requestData elapsed stats).1.message
        = "success"
    ∧ (ExecutePlugin plugins load plugin_name http_method requestData elapsed stats).1.data
        = format_plugin_result (basePluginExecute requestData http_method (JVal.jobj []))
    ∧ (ExecutePlugin plugins load plugin_name http_method requestData elapsed stats).2
        = { total_executions := stats.total_executions + 1,
            successful_executions := stats.successful_executions + 1,
            failed_executions := stats.failed_executions,
            total_execution_time := stats.total_execution_time + elapsed } := by
  refine ⟨?_, ?_, ?_, ?_⟩ <;>
    simp [ExecutePlugin, hfind, hload, hrun, Except.bind, update_execution_stats,
      basePluginExecute, hfalsy]

/-- Witness for the falsy-success theorem: a plugin returning `None`
yields status 200, message "success", and one recorded success. -/
theorem execute_falsy_run_succeeds_witness :
    (ExecutePlugin [("p", "/plugins/p.py")] (fun _ => .ok nonePlugin)
        "p" "POST" [("k", "v")] 1 initStats).1.status_code = 200
    ∧ (ExecutePlugin [("p", "/plugins/p.py")] (fun _ => .ok nonePlugin)
        "p" "POST" [("k", "v")] 1 initStats).1.message = "success"
    ∧ (ExecutePlugin [("p", "/plugins/p.py")] (fun _ => .ok nonePlugin)
        "p" "POST" [("k", "v")] 1 initStats).2.successful_executions = 1 := by
  have h := execute_falsy_run_succeeds [("p", "/plugins/p.py")]
    (fun _ => .ok nonePlugin) "p" "POST" "/plugins/p.py" nonePlugin
    [("k", "v")] 1 initStats JVal.jnull rfl rfl rfl rfl
  refine ⟨h.1, h.2.1, ?_⟩
  rw [h.2.2.2]
  simp [initStats]

/-- The canary status string "failed: e" always starts with "failed". -/
theorem strStartsWith_failed (e : String) :
    strStartsWith ("failed: " ++ e) "failed" = true := by
  simp only [strStartsWith, String.toList, String.data_append]
  rw [List.isPrefixOf_iff_prefix]
  exact List.IsPrefix.trans (by decide) (List.prefix_append _ _)

/-- C8: HealthCheck returns "unhealthy" exactly when building the
discovery map raises; with a built map it returns "degraded" exactly
when zero plugins are discovered (then with the no-plugins message), or
the canary load fails, or more than 10 invocations ran with success
rate below 80%; in all remaining cases it returns "healthy". -/
theorem health_status_determination
    (discovery : Except String (List (String × String)))
    (canaryLoadError : Option String) (stats : ExecStats) :
    (∀ e, discovery = .error e →
      (HealthCheck discovery canaryLoadError stats).status = "unhealthy")
    ∧ (∀ plugins, discovery = .ok plugins →
        (HealthCheck discovery canaryLoadError stats).status ≠ "unhealthy"
        ∧ ((HealthCheck discovery canaryLoadError stats).status = "degraded" ↔
            (plugins.length = 0
             ∨ (plugins ≠ [] ∧ canaryLoadError.isSome)
             ∨ (stats.total_executions > 10 ∧ successRate stats < 80)))
        ∧ (plugins.length = 0 →
            (HealthCheck discovery canaryLoadError stats).message = "No plugins found")
        ∧ ((HealthCheck discovery canaryLoadError stats).status = "degraded"
           ∨ (HealthCheck discovery canaryLoadError stats).status = "healthy")) := by
  constructor
  · intro e he; subst he; simp [HealthCheck]
  · intro plugins hp; subst hp
    cases plugins with
    | nil => simp [HealthCheck]
    | cons q qs =>
      cases hcan : canaryLoadError with
      | some e =>
        simp [HealthCheck, strStartsWith_failed]
      | none =>
        have hok : strStartsWith "ok" "failed" = false := by decide
        by_cases hrate : stats.total_executions > 10 ∧ successRate stats < 80
        · simp [HealthCheck, hok, hrate]
        · simp [HealthCheck, hok, hrate]

/-- Witness for the health status theorem: a service with an empty
discovery map, no canary failure and fresh statistics reports
"degraded" with the no-plugins message, and never "unhealthy". -/
theorem health_status_determination_witness :
    (HealthCheck (.ok []) none initStats).status ≠ "unhealthy"
    ∧ (HealthCheck (.ok []) none initStats).status = "degraded"
    ∧ (HealthCheck (.ok []) none initStats).message = "No plugins found" := by
  have h := (health_status_determination (.ok []) none initStats).2 [] rfl
  exact ⟨h.1, h.2.1.mpr (Or.inl rfl), h.2.2.1 rfl⟩

/-- C6: a cache hit (same path, unchanged modification time) returns
the very class stored by the previous call, changes no state and does
not invoke the Loader; once the modification time changes to one whose
key is not yet cached, the Loader runs afresh on the new content. -/
theorem cache_idempotence
    (load_plugin : String → Nat → PluginClass) (st : CacheState)
    (path : String) (mtime : Nat) :
    (load_plugin_with_cache load_plugin
        (load_plugin_with_cache load_plugin st path mtime).2 path mtime
      = ((load_plugin_with_cache load_plugin st path mtime).1,
         (load_plugin_with_cache load_plugin st path mtime).2))
    ∧ (∀ mtime2,
        (load_plugin_with_cache load_plugin st path mtime).2.plugin_cache.lookup
            (cacheKey path mtime2) = none →
        (load_plugin_with_cache load_plugin
            (load_plugin_with_cache load_plugin st path mtime).2 path mtime2).1
          = load_plugin path mtime2
        ∧ (load_plugin_with_cache load_plugin
            (load_plugin_with_cache load_plugin st path mtime).2 path mtime2).2.loaderCalls
          = (load_plugin_with_cache load_plugin st path mtime).2.loaderCalls + 1) := by
  constructor
  · rcases hl : st.plugin_cache.lookup (cacheKey path mtime) with _ | cls
    · simp [load_plugin_with_cache, hl]
    · simp [load_plugin_with_cache, hl]
  · intro mtime2 hmiss
    generalize (load_plugin_with_cache load_plugin st path mtime).2 = s1 at hmiss ⊢
    constructor <;> simp [load_plugin_with_cache, hmiss]

/-- Witness for cache idempotence: from an empty cache, a repeated load
at mtime 1 returns the stored class without touching the state, and a
load at mtime 2 afterwards invokes the Loader on the new content. -/
theorem cache_idempotence_witness :
    (load_plugin_with_cache genLoader
        (load_plugin_with_cache genLoader ⟨[], 0⟩ "/p.py" 1).2 "/p.py" 1
      = ((load_plugin_with_cache genLoader ⟨[], 0⟩ "/p.py" 1).1,
         (load_plugin_with_cache genLoader ⟨[], 0⟩ "/p.py" 1).2))
    ∧ (load_plugin_with_cache genLoader
        (load_plugin_with_cache genLoader ⟨[], 0⟩ "/p.py" 1).2 "/p.py" 2).1
      = genLoader "/p.py" 2
    ∧ (load_plugin_with_cache genLoader
        (load_plugin_with_cache genLoader ⟨[], 0⟩ "/p.py" 1).2 "/p.py" 2).2.loaderCalls
      = (load_plugin_with_cache genLoader ⟨[], 0⟩ "/p.py" 1).2.loaderCalls + 1 := by
  have h := cache_idempotence genLoader ⟨[], 0⟩ "/p.py" 1
  have h2 := h.2 2 (by simp [load_plugin_with_cache, cacheKey, List.lookup]; rfl)
  exact ⟨h.1, h2.1, h2.2⟩

/-! ## Association-list lemmas for the discovery maps -/

/-- A key bound in the left part of an append keeps its binding. -/
theorem lookup_append_left {m l : List (String × String)} {k v : String}
    (h : m.lookup k = some v) : (m ++ l).lookup k = some v := by
  rw [List.lookup_append, h]
  rfl

/-- One file step of the `get_plugins` scan never disturbs an existing
binding: it only appends entries for unbound names. -/
theorem scanFileInto_preserves (path f : String) {acc : List (String × String)}
    {k v : String} (h : acc.lookup k = some v) :
    (scanFileInto path acc f).lookup k = some v := by
  unfold scanFileInto
  split
  · dsimp only
    split
    · exact lookup_append_left h
    · exact h
  · exact h

/-- Folding the file step over a directory preserves existing bindings. -/
theorem scanFiles_preserve (path : String) (files : List String)
    {acc : List (String × String)} {k v : String} (h : acc.lookup k = some v) :
    (files.foldl (scanFileInto path) acc).lookup k = some v := by
  induction files generalizing acc with
  | nil => exact h
  | cons f fl ih => exact ih (scanFileInto_preserves path f h)

/-- A whole directory of the `get_plugins` scan preserves bindings. -/
theorem scanDirInto_preserves (fs : FS) (path : String)
    {acc : List (String × String)} {k v : String} (h : acc.lookup k = some v) :
    (scanDirInto fs acc path).lookup k = some v := by
  unfold scanDirInto
  cases fs.dirs.lookup path with
  | none => exact h
  | some files => exact scanFiles_preserve path files h

/-- Scanning further directories preserves bindings. -/
theorem scanPaths_preserve (fs : FS) (more : List String)
    {acc : List (String × String)} {k v : String} (h : acc.lookup k = some v) :
    (more.foldl (scanDirInto fs) acc).lookup k = some v := by
  induction more generalizing acc with
  | nil => exact h
  | cons d ds ih => exact ih (scanDirInto_preserves fs d h)

/-- Python dict assignment binds the assigned key to the new value. -/
theorem assocSet_lookup_self (m : List (String × String)) (k v : String) :
    (assocSet m k v).lookup k = some v := by
  induction m with
  | nil => simp [assocSet]
  | cons p rest ih =>
    obtain ⟨a, b⟩ := p
    by_cases hk : a = k
    · simp [assocSet, hk]
    · have hne : (k == a) = false := beq_eq_false_iff_ne.mpr (Ne.symm hk)
      simp [assocSet, hk, List.lookup_cons, hne, ih]

/-- Python dict assignment leaves other keys untouched. -/
theorem assocSet_lookup_ne (m : List (String × String)) {k q : String}
    (v : String) (hne : k ≠ q) : (assocSet m k v).lookup q = m.lookup q := by
  have hqk : (q == k) = false := beq_eq_false_iff_ne.mpr (Ne.symm hne)
  induction m with
  | nil => simp [assocSet, List.lookup_cons, hqk]
  | cons p rest ih =>
    obtain ⟨a, b⟩ := p
    by_cases hk : a = k
    · subst hk
      simp [assocSet, List.lookup_cons, hqk]
    · cases hq : (q == a) <;> simp [assocSet, hk, List.lookup_cons, hq, ih]

/-- Keys of an assigned dict are among the old keys and the new key. -/
theorem mem_keys_assocSet : ∀ (m : List (String × String)) (k v x : String),
    x ∈ (assocSet m k v).map Prod.fst → x ∈ m.map Prod.fst ∨ x = k
  | [], k, v, x, h => by simpa [assocSet] using h
  | (a, b) :: rest, k, v, x, h => by
    by_cases hk : a = k
    · simp only [assocSet, hk, if_pos, List.map_cons, List.mem_cons] at h
      rcases h with h | h
      · exact Or.inr h
      · exact Or.inl (by simp [h])
    · simp only [assocSet, if_neg hk, List.map_cons, List.mem_cons] at h
      rcases h with h | h
      · exact Or.inl (by simp [h])
      · rcases mem_keys_assocSet rest k v x h with hx | hx
        · exact Or.inl (by simp [hx])
        · exact Or.inr hx

/-- Python dict assignment keeps the keys duplicate-free. -/
theorem assocSet_keys_nodup : ∀ {m : List (String × String)},
    (m.map Prod.fst).Nodup → ∀ (k v : String),
    ((assocSet m k v).map Prod.fst).Nodup := by
  intro m
  induction m with
  | nil => intro _ k v; simp [assocSet]
  | cons p rest ih =>
    obtain ⟨a, b⟩ := p
    intro h k v
    simp only [List.map_cons, List.nodup_cons] at h
    by_cases hk : a = k
    · simp only [assocSet, hk, if_pos, List.map_cons, List.nodup_cons]
      exact ⟨hk ▸ h.1, h.2⟩
    · simp only [assocSet, if_neg hk, List.map_cons, List.nodup_cons]
      refine ⟨fun hmem => ?_, ih h.2 k v⟩
      rcases mem_keys_assocSet rest k v a hmem with hx | hx
      · exact h.1 hx
      · exact hk hx

/-- The map built by `_discover_plugins_in_dir` has duplicate-free keys. -/
theorem discover_keys_nodup (fs : FS) (d : String) :
    ((discover_plugins_in_dir fs d).map Prod.fst).Nodup := by
  unfold discover_plugins_in_dir
  cases fs.dirs.lookup d with
  | none => simp
  | some files =>
    have h : ∀ acc : List (String × String), (acc.map Prod.fst).Nodup →
        ((files.foldl (discoverFileInto d) acc).map Prod.fst).Nodup := by
      induction files with
      | nil => exact fun acc h => h
      | cons f fl ih =>
        intro acc hacc
        simp only [List.foldl_cons]
        apply ih
        unfold discoverFileInto
        split
        · exact assocSet_keys_nodup hacc _ _
        · exact hacc
    exact h [] (by simp)

/-- `dict.update` does not touch keys absent from the update map. -/
theorem dictUpdate_lookup_not_mem (ext : List (String × String))
    {m : List (String × String)} {k : String} (hk : k ∉ ext.map Prod.fst) :
    (dictUpdate m ext).lookup k = m.lookup k := by
  induction ext generalizing m with
  | nil => rfl
  | cons p rest ih =>
    simp only [List.map_cons, List.mem_cons, not_or] at hk
    simp only [dictUpdate, List.foldl_cons] at ih ⊢
    rw [ih hk.2, assocSet_lookup_ne _ _ (fun hp => hk.1 hp.symm)]

/-- `dict.update` rebinds every key of a duplicate-free update map to
the update's value, overwriting whatever the base dict held. -/
theorem dictUpdate_lookup_of_nodup (ext : List (String × String))
    {m : List (String × String)} {k v : String}
    (hnd : (ext.map Prod.fst).Nodup) (h : ext.lookup k = some v) :
    (dictUpdate m ext).lookup k = some v := by
  induction ext generalizing m with
  | nil => simp at h
  | cons p rest ih =>
    simp only [List.map_cons, List.nodup_cons] at hnd
    rw [List.lookup_cons] at h
    have hgoal : dictUpdate m (p :: rest) = dictUpdate (assocSet m p.1 p.2) rest := rfl
    rw [hgoal]
    cases hk : (k == p.1) with
    | false =>
      rw [hk] at h
      exact ih hnd.2 h
    | true =>
      rw [hk] at h
      have hkeq : k = p.1 := eq_of_beq hk
      have hnot : k ∉ rest.map Prod.fst := hkeq ▸ hnd.1
      have hv : p.2 = v := by simpa using h
      rw [dictUpdate_lookup_not_mem rest hnot, hkeq, assocSet_lookup_self, hv]

/-- C1 counterexample: a plugin returning the mapping with keys "x" and
"y" does NOT yield an envelope data equal to that mapping stringified:
the envelope's data has no "x" or "y" key at all; the plugin's mapping
appears as JSON text under the wrapper key "result", next to the
input_data/additional_info/http_method fields added by
`BasePlugin.execute`. -/
theorem roundtrip_data_counterexample :
    (ExecutePlugin [("p", "/plugins/p.py")] (fun _ => .ok xyPlugin)
        "p" "POST" [] 1 initStats).1.status_code = 200
    ∧ (ExecutePlugin [("p", "/plugins/p.py")] (fun _ => .ok xyPlugin)
        "p" "POST" [] 1 initStats).1.data.lookup "x" = none
    ∧ (ExecutePlugin [("p", "/plugins/p.py")] (fun _ => .ok xyPlugin)
        "p" "POST" [] 1 initStats).1.data.lookup "y" = none
    ∧ (ExecutePlugin [("p", "/plugins/p.py")] (fun _ => .ok xyPlugin)
        "p" "POST" [] 1 initStats).1.data
      = [("input_data", "\x7b\x7d"),
         ("additional_info", "This is some additional information."),
         ("http_method", "POST"),
         ("result", "\x7b\"x\": 1, \"y\": [1, 2]\x7d")] := by
  decide

/-- C1 amended: for every plugin whose capability returns the mapping
with keys "x" and "y", Execute returns status 200 and its data is the
`_format_plugin_result` image of the `BasePlugin.execute` wrapper, so
the plugin's mapping sits under the wrapper key "result" as canonical
JSON text; the claimed stringification does hold for
`_format_plugin_result` applied directly to the plugin's mapping. -/
theorem roundtrip_data_amended
    (plugins : List (String × String)) (load : String → Except String PluginClass)
    (plugin_name http_method path : String)
    (requestData : List (String × String)) (elapsed : ℚ) (stats : ExecStats)
    (hfind : plugins.lookup plugin_name = some path)
    (hload : load path = .ok xyPlugin) :
    (ExecutePlugin plugins load plugin_name http_method requestData elapsed stats).1.status_code
        = 200
    ∧ (ExecutePlugin plugins load plugin_name http_method requestData elapsed stats).1.message
        = "success"
    ∧ format_plugin_result xyMapping = [("x", "1"), ("y", "[1, 2]")]
    ∧ (ExecutePlugin plugins load plugin_name http_method requestData elapsed stats).1.data
        = format_plugin_result (basePluginExecute requestData http_method xyMapping)
    ∧ (ExecutePlugin plugins load plugin_name http_method requestData elapsed stats).1.data.lookup
        "result" = some "\x7b\"x\": 1, \"y\": [1, 2]\x7d" := by
  have hdata :
      (ExecutePlugin plugins load plugin_name http_method requestData elapsed stats).1.data
        = format_plugin_result (basePluginExecute requestData http_method xyMapping) := by
    simp [ExecutePlugin, hfind, hload, Except.bind, xyPlugin]
  refine ⟨?_, ?_, by decide, hdata, ?_⟩
  · simp [ExecutePlugin, hfind, hload, Except.bind, xyPlugin]
  · simp [ExecutePlugin, hfind, hload, Except.bind, xyPlugin]
  · rw [hdata]
    simp [basePluginExecute, format_plugin_result, xyMapping, pyFalsy,
      List.lookup_cons, jsonDumps, jsonDumpsFields, jsonDumpsItems, jsonQuote,
      jsonEscapeChar]
    decide

/-- Witness for the amended round-trip theorem at a concrete request. -/
theorem roundtrip_data_amended_witness :
    (ExecutePlugin [("p", "/plugins/p.py")] (fun _ => .ok xyPlugin)
        "p" "GET" [("k", "v")] 1 initStats).1.status_code = 200
    ∧ format_plugin_result xyMapping = [("x", "1"), ("y", "[1, 2]")]
    ∧ (ExecutePlugin [("p", "/plugins/p.py")] (fun _ => .ok xyPlugin)
        "p" "GET" [("k", "v")] 1 initStats).1.data.lookup "result"
      = some "\x7b\"x\": 1, \"y\": [1, 2]\x7d" := by
  have h := roundtrip_data_amended [("p", "/plugins/p.py")] (fun _ => .ok xyPlugin)
    "p" "GET" "/plugins/p.py" [("k", "v")] 1 initStats rfl rfl
  exact ⟨h.1, h.2.2.1, h.2.2.2.2⟩

/-- C2 counterexample: with "p.py" in both the default and the
caller-supplied extra directory, `get_plugins` alone resolves "p" to the
default directory, but the servicer's merge lets the extra directory
overwrite it: the final map resolves "p" to the extra directory's file,
so the later directory does overwrite the earlier one's entry. -/
theorem discovery_precedence_counterexample :
    (get_plugins_scan fsBoth [] "/default" none).lookup "p" = some "/default/p.py"
    ∧ (get_plugins_with_extra_dirs fsBoth
        (get_plugins_scan fsBoth [] "/default" none) ["/extra"]).lookup "p"
      = some "/extra/p.py" := by
  decide

/-- C2 amended: inside `get_plugins` the first directory in priority
order does win — a binding produced by a prefix of the path list
survives scanning any further directories; but in the servicer's
`_get_plugins_with_extra_dirs` the caller-supplied extra directories are
merged with `dict.update`, so an extra directory's entry overwrites the
base map's entry for the same name. -/
theorem discovery_precedence_amended :
    (∀ (fs : FS) (paths morePaths : List String) (k v : String),
        (paths.foldl (scanDirInto fs) []).lookup k = some v →
        ((paths ++ morePaths).foldl (scanDirInto fs) []).lookup k = some v)
    ∧ (∀ (fs : FS) (basePlugins : List (String × String)) (d k v : String),
        (discover_plugins_in_dir fs d).lookup k = some v →
        (get_plugins_with_extra_dirs fs basePlugins [d]).lookup k = some v) := by
  constructor
  · intro fs paths morePaths k v h
    rw [List.foldl_append]
    exact scanPaths_preserve fs morePaths h
  · intro fs basePlugins d k v h
    have hgoal : get_plugins_with_extra_dirs fs basePlugins [d]
        = dictUpdate basePlugins (discover_plugins_in_dir fs d) := rfl
    rw [hgoal]
    exact dictUpdate_lookup_of_nodup _ (discover_keys_nodup fs d) h

/-- Witness for the amended precedence theorem: the default directory's
binding of "p" survives scanning the extra directory inside the
`get_plugins` scan, while the servicer's merge rebinds "p" to the extra
directory's file. -/
theorem discovery_precedence_amended_witness :
    ((["/default"] ++ ["/extra"]).foldl (scanDirInto fsBoth) []).lookup "p"
      = some "/default/p.py"
    ∧ (get_plugins_with_extra_dirs fsBoth [("p", "/default/p.py")]
        ["/extra"]).lookup "p" = some "/extra/p.py" := by
  exact ⟨discovery_precedence_amended.1 fsBoth ["/default"] ["/extra"] "p"
      "/default/p.py" (by decide),
    discovery_precedence_amended.2 fsBoth [("p", "/default/p.py")] "/extra" "p"
      "/extra/p.py" (by decide)⟩

/-- C3 counterexample: `get_plugins` is wrapped in `lru_cache`, so after
a first call discovered "a.py", a second call with the same argument
still reports "a" even though the file is gone from the directory — a
fresh scan of the changed filesystem finds nothing. -/
theorem discovery_memoized_counterexample :
    (get_plugins_cached fsWithoutA [] "/default"
        (get_plugins_cached fsWithA [] "/default" [] none).2 none).1.lookup "a"
      = some "/default/a.py"
    ∧ get_plugins_scan fsWithoutA [] "/default" none = [] := by
  decide

/-- C3 amended: discovery via `get_plugins` is internally memoized by
`lru_cache` keyed on the `extra_path` argument: a repeated call with a
cached key returns the stored map unchanged, ignoring the current
directory contents; only a call with an uncached key scans the
filesystem at call time and stores the result. -/
theorem discovery_memoization_amended
    (fs : FS) (envPaths : List String) (defaultPath : String)
    (memo : List (Option String × List (String × String))) (extra : Option String) :
    (∀ r, memo.lookup extra = some r →
        get_plugins_cached fs envPaths defaultPath memo extra = (r, memo))
    ∧ (memo.lookup extra = none →
        get_plugins_cached fs envPaths defaultPath memo extra
          = (get_plugins_scan fs envPaths defaultPath extra,
             (extra, get_plugins_scan fs envPaths defaultPath extra) :: memo)) := by
  constructor
  · intro r h
    simp [get_plugins_cached, h]
  · intro h
    simp [get_plugins_cached, h]

/-- Witness for the memoization theorem: a hit returns the stored map
regardless of the current filesystem; a miss scans it. -/
theorem discovery_memoization_amended_witness :
    get_plugins_cached fsWithoutA [] "/default"
        [(none, [("a", "/default/a.py")])] none
      = ([("a", "/default/a.py")], [(none, [("a", "/default/a.py")])])
    ∧ get_plugins_cached fsWithA [] "/default" [] none
      = ([("a", "/default/a.py")],
         [(none, [("a", "/default/a.py")])]) := by
  refine ⟨(discovery_memoization_amended fsWithoutA [] "/default"
      [(none, [("a", "/default/a.py")])] none).1 _ rfl, ?_⟩
  have h := (discovery_memoization_amended fsWithA [] "/default" [] none).2 rfl
  rw [h]
  decide

/-- C4 counterexample: a load failure whose error text mentions
"permission" is returned with status 403, not 500 — load errors flow
through the same keyword classification as invocation errors. -/
theorem load_error_status_counterexample :
    (ExecutePlugin [("p", "/p.py")] (fun _ => .error "Permission denied")
        "p" "POST" [] 1 initStats).1.status_code = 403
    ∧ (ExecutePlugin [("p", "/p.py")] (fun _ => .error "Permission denied")
        "p" "POST" [] 1 initStats).1.message = "Plugin execution failed"
    ∧ (ExecutePlugin [("p", "/p.py")] (fun _ => .error "Permission denied")
        "p" "POST" [] 1 initStats).1.error = "Permission denied" := by
  decide

/-- C4 amended: a failing load makes Execute return message "Plugin
execution failed" with error equal to the load error text and a failure
recorded; the status code comes from the keyword classification of that
text — it is 500 exactly when the text contains none of the keywords
("not found", "permission", "access", "timeout"). -/
theorem load_error_classified_amended
    (plugins : List (String × String)) (load : String → Except String PluginClass)
    (plugin_name http_method path : String)
    (requestData : List (String × String)) (elapsed : ℚ) (stats : ExecStats)
    (e : String)
    (hfind : plugins.lookup plugin_name = some path)
    (hload : load path = .error e) :
    (ExecutePlugin plugins load plugin_name http_method requestData elapsed stats).1.message
        = "Plugin execution failed"
    ∧ (ExecutePlugin plugins load plugin_name http_method requestData elapsed stats).1.error
        = e
    ∧ (ExecutePlugin plugins load plugin_name http_method requestData elapsed stats).1.status_code
        = classifyErrorStatus e
    ∧ (strContains (pyLower e) "not found" = false →
       strContains (pyLower e) "permission" = false →
       strContains (pyLower e) "access" = false →
       strContains (pyLower e) "timeout" = false →
       (ExecutePlugin plugins load plugin_name http_method requestData elapsed stats).1.status_code
         = 500)
    ∧ (ExecutePlugin plugins load plugin_name http_method requestData elapsed stats).2
        = update_execution_stats stats false elapsed := by
  refine ⟨?_, ?_, ?_, ?_, ?_⟩ <;>
    simp [ExecutePlugin, hfind, hload, Except.bind]
  intro h1 h2 h3 h4
  simp [classifyErrorStatus, h1, h2, h3, h4]

/-- Witness for the amended load-error theorem: a keyword-free load
error yields status 500 with the fixed failure message. -/
theorem load_error_classified_amended_witness :
    (ExecutePlugin [("p", "/p.py")] (fun _ => .error "invalid syntax")
        "p" "POST" [] 1 initStats).1.message = "Plugin execution failed"
    ∧ (ExecutePlugin [("p", "/p.py")] (fun _ => .error "invalid syntax")
        "p" "POST" [] 1 initStats).1.error = "invalid syntax"
    ∧ (ExecutePlugin [("p", "/p.py")] (fun _ => .error "invalid syntax")
        "p" "POST" [] 1 initStats).1.status_code = 500 := by
  have h := load_error_classified_amended [("p", "/p.py")]
    (fun _ => .error "invalid syntax") "p" "POST" "/p.py" [] 1 initStats
    "invalid syntax" rfl rfl
  exact ⟨h.1, h.2.1, h.2.2.2.1 (by decide) (by decide) (by decide) (by decide)⟩

/-- C7 counterexample: for a plugin class overriding only `post`, List
reports supported methods ["POST"], while Describe hardcodes all four —
so Describe does not report the same supported capability set as List. -/
theorem describe_methods_counterexample :
    (listPluginEntry (fun _ => .ok postOnlyPlugin) "p" "/p.py").supported_methods
      = ["POST"]
    ∧ (GetPluginInfo [("p", "/p.py")] (fun _ => .ok postOnlyPlugin) "p").map
        (fun i => i.supported_methods) = some ["GET", "POST", "PUT", "DELETE"]
    ∧ (["POST"] : List String) ≠ ["GET", "POST", "PUT", "DELETE"] := by
  decide

/-- C7 amended: for every name in the base discovery map, Describe
reports found and the same availability as the corresponding List
entry, but its supported-method set is hardcoded: all four methods
whenever the load succeeds (regardless of which are overridden) and the
empty set when it fails; for a name absent from the map Describe
reports found equal to false. -/
theorem describe_agrees_amended
    (plugins : List (String × String)) (load : String → Except String PluginClass)
    (plugin_name : String) :
    (∀ path, plugins.lookup plugin_name = some path →
        ((GetPluginInfo plugins load plugin_name).map (fun i => i.is_available)
            = some (listPluginEntry load plugin_name path).is_available)
        ∧ ((GetPluginInfo plugins load plugin_name).map (fun i => i.supported_methods)
            = some (match load path with
                    | .ok _ => ["GET", "POST", "PUT", "DELETE"]
                    | .error _ => [])))
    ∧ (plugins.lookup plugin_name = none →
        GetPluginInfo plugins load plugin_name = none) := by
  constructor
  · intro path hp
    constructor <;>
      · cases hl : load path <;> simp [GetPluginInfo, listPluginEntry, hp, hl]
  · intro h
    simp [GetPluginInfo, h]

/-- Witness for the amended Describe theorem: with the post-only plugin
present under "p", Describe reports availability true like List and all
four methods; an absent name gives found equal to false. -/
theorem describe_agrees_amended_witness :
    ((GetPluginInfo [("p", "/p.py")] (fun _ => .ok postOnlyPlugin) "p").map
        (fun i => i.is_available)
      = some (listPluginEntry (fun _ => .ok postOnlyPlugin) "p" "/p.py").is_available)
    ∧ ((GetPluginInfo [("p", "/p.py")] (fun _ => .ok postOnlyPlugin) "p").map
        (fun i => i.supported_methods) = some ["GET", "POST", "PUT", "DELETE"])
    ∧ GetPluginInfo [("p", "/p.py")] (fun _ => .ok postOnlyPlugin) "missing" = none := by
  have h := describe_agrees_amended [("p", "/p.py")] (fun _ => .ok postOnlyPlugin) "p"
  have h1 := h.1 "/p.py" rfl
  have h2 := describe_agrees_amended [("p", "/p.py")] (fun _ => .ok postOnlyPlugin) "missing"
  exact ⟨h1.1, h1.2, h2.2 (by decide)⟩

end WebhookBridge
